import Mathlib

/-!
Shallow embedding of `src/core/computed/resource-summary.js` (Lighthouse).

The file computes a resource-usage summary for a page load: it classifies
each network request into one of seven resource-type buckets, plus the
synthetic "total" and "third-party" buckets, after excluding candidate
favicon requests of type "other" and non-network-protocol requests.

External collaborators of the file (the `Budget.getMatchingBudget` matcher,
the `NetworkRequest.isNonNetworkRequest` predicate, `Util.getRootDomain`,
and WHATWG `new URL(href, base).href` resolution) are modelled as opaque
function parameters collected in the `Externals` structure: the summarizer
only consumes their results, exactly as in the source.
-/

namespace ResourceSummary

/-- Models the relevant fields of an `LH.Artifacts.NetworkRequest` record:
`url` (absolute URL string), `hostname` (the value of
`new URL(record.url).hostname`, carried as a field since URL parsing is
external to the file), the optional protocol-level `resourceType` string,
and the two sizes.  JS numbers are modelled as `Int` for the sizes. -/
structure NetworkRequest where
  url : String
  hostname : String
  resourceType : Option String
  resourceSize : Int
  transferSize : Int
deriving Repr, DecidableEq

/-- Models `LH.Artifacts.LinkElement`: the `rel` string and the optional
`href`.  A falsy (`undefined` or empty) `href` is modelled as `none`. -/
structure LinkElement where
  rel : String
  href : Option String
deriving Repr, DecidableEq

/-- Models `LH.Budget.options`: the optional `firstPartyHostnames` list. -/
structure BudgetOptions where
  firstPartyHostnames : Option (List String)
deriving Repr, DecidableEq

/-- Models `LH.Budget`: only the `options` field is consumed here. -/
structure Budget where
  options : Option BudgetOptions
deriving Repr, DecidableEq

/-- Models the first-party entity of `LH.Artifacts.EntityClassification`:
a list of domains. -/
structure FirstPartyEntity where
  domains : List String
deriving Repr, DecidableEq

/-- Models `LH.Artifacts.EntityClassification` as consumed by the file:
only the optional `firstParty` entity is read. -/
structure EntityClassificationArtifact where
  firstParty : Option FirstPartyEntity
deriving Repr, DecidableEq

/-- Models `LH.Artifacts.URL`: `mainDocumentUrl` (possibly absent/falsy,
modelled as `Option`) and `finalDisplayedUrl`. -/
structure URLArtifact where
  mainDocumentUrl : Option String
  finalDisplayedUrl : String
deriving Repr, DecidableEq

/-- Models one `ResourceEntry` value `{count, resourceSize, transferSize}`. -/
structure ResourceEntry where
  count : Nat
  resourceSize : Int
  transferSize : Int
deriving Repr, DecidableEq

/-- The zero-initialized entry `{count: 0, resourceSize: 0, transferSize: 0}`. -/
def zeroEntry : ResourceEntry := ⟨0, 0, 0⟩

/-- Models the summary object: a record with exactly the nine budget
resource-type keys.  The JS key `third-party` is spelled `thirdParty`. -/
structure ResourceSummaryRec where
  stylesheet : ResourceEntry
  image : ResourceEntry
  media : ResourceEntry
  font : ResourceEntry
  script : ResourceEntry
  document : ResourceEntry
  other : ResourceEntry
  total : ResourceEntry
  thirdParty : ResourceEntry
deriving Repr, DecidableEq

/-- Models JS property access `resourceSummary[key]` on the summary object:
`some` for exactly the nine keys, `none` otherwise. -/
def ResourceSummaryRec.get (s : ResourceSummaryRec) (key : String) : Option ResourceEntry :=
  if key = "stylesheet" then some s.stylesheet
  else if key = "image" then some s.image
  else if key = "media" then some s.media
  else if key = "font" then some s.font
  else if key = "script" then some s.script
  else if key = "document" then some s.document
  else if key = "other" then some s.other
  else if key = "total" then some s.total
  else if key = "third-party" then some s.thirdParty
  else none

/-- The nine budget resource-type keys of the summary object, in the order
they appear in the source literal. -/
def allBudgetResourceTypes : List String :=
  ["stylesheet", "image", "media", "font", "script", "document", "other", "total", "third-party"]

/-- The zero-initialized summary literal built at the top of `summarize`. -/
def initialSummary : ResourceSummaryRec :=
  { stylesheet := zeroEntry, image := zeroEntry, media := zeroEntry, font := zeroEntry
  , script := zeroEntry, document := zeroEntry, other := zeroEntry, total := zeroEntry
  , thirdParty := zeroEntry }

/-- External collaborators imported by the file, passed as opaque functions:
`Budget.getMatchingBudget(budgets, mainDocumentUrl)`,
`NetworkRequest.isNonNetworkRequest(record)`, `Util.getRootDomain(url)`,
and `resolveURL href base` modelling `new URL(href, base).href`. -/
structure Externals where
  getMatchingBudget : Option (List Budget) → Option String → Option Budget
  isNonNetworkRequest : NetworkRequest → Bool
  getRootDomain : String → String
  resolveURL : String → String → String

/-- Embeds `ResourceSummary.determineResourceType`: a falsy `resourceType`
yields `"other"`; otherwise the fixed table maps the six known protocol
resource types, any other value falling through to `"other"`. -/
def determineResourceType (record : NetworkRequest) : String :=
  match record.resourceType with
  | none => "other"
  | some resourceType =>
    if resourceType = "Stylesheet" then "stylesheet"
    else if resourceType = "Image" then "image"
    else if resourceType = "Media" then "media"
    else if resourceType = "Font" then "font"
    else if resourceType = "Script" then "script"
    else if resourceType = "Document" then "document"
    else "other"

/-- Embeds the filter callback `e => e.rel === 'icon' || e.rel === 'shortcut icon'`
used inside `determineFaviconUrls`. -/
def isIconLink (e : LinkElement) : Bool :=
  e.rel == "icon" || e.rel == "shortcut icon"

/-- Embeds `ResourceSummary.determineFaviconUrls`: empty when
`mainDocumentUrl` is falsy; the default `/favicon.ico` resolved against
`mainDocumentUrl` when no icon link element exists; otherwise the resolved
`href` of each icon link element that has one. -/
def determineFaviconUrls (resolveURL : String → String → String)
    (LinkElements : List LinkElement) (mainDocumentUrl : Option String) : List String :=
  match mainDocumentUrl with
  | none => []
  | some mainUrl =>
    let iconLinkElements := LinkElements.filter isIconLink
    if iconLinkElements.length = 0 then [resolveURL "/favicon.ico" mainUrl]
    else iconLinkElements.filterMap fun linkElement =>
      linkElement.href.map fun href => resolveURL href mainUrl

/-- Embeds the resolution of `firstPartyHosts` in `summarize`:
`budget?.options?.firstPartyHostnames` wins when present; else the
first-party entity's domains each prefixed with `*.` (an empty `domains`
array is truthy in JS, so the fallback is NOT taken then); else the single
pattern `*.` + root domain of `finalDisplayedUrl`. -/
def resolveFirstPartyHosts (ext : Externals) (urlArtifact : URLArtifact)
    (budgets : Option (List Budget))
    (classifiedEntities : EntityClassificationArtifact) : List String :=
  let budget := ext.getMatchingBudget budgets urlArtifact.mainDocumentUrl
  match (budget.bind fun b => b.options).bind fun o => o.firstPartyHostnames with
  | some hostnames => hostnames
  | none =>
    match classifiedEntities.firstParty with
    | some firstParty => firstParty.domains.map fun domain => "*." ++ domain
    | none => ["*." ++ ext.getRootDomain urlArtifact.finalDisplayedUrl]

/-- Embeds the filter callback of `summarize`: drop favicon candidates of
type `other`, then drop non-network-protocol requests. -/
def keepRecord (isNonNetworkRequest : NetworkRequest → Bool)
    (faviconUrls : List String) (record : NetworkRequest) : Bool :=
  if determineResourceType record = "other" && faviconUrls.contains record.url then false
  else if isNonNetworkRequest record then false
  else true

/-- The record list surviving the exclusion filter of `summarize`. -/
def survivingRecords (ext : Externals) (networkRecords : List NetworkRequest)
    (urlArtifact : URLArtifact) (LinkElements : List LinkElement) : List NetworkRequest :=
  networkRecords.filter
    (keepRecord ext.isNonNetworkRequest
      (determineFaviconUrls ext.resolveURL LinkElements urlArtifact.mainDocumentUrl))

/-- Embeds the per-record hostname test
`firstPartyHosts.some(hostExp => ...)` of `summarize`: a `*.`-pattern
matches by hostname suffix (after `slice(2)`), any other pattern by exact
hostname equality. -/
def isFirstParty (firstPartyHosts : List String) (record : NetworkRequest) : Bool :=
  firstPartyHosts.any fun hostExp =>
    if hostExp.startsWith "*." then record.hostname.endsWith (hostExp.drop 2)
    else record.hostname == hostExp

/-- Embeds `resourceSummary[type].count++` etc.: one record's three fields
added to one entry. -/
def ResourceEntry.add (e : ResourceEntry) (record : NetworkRequest) : ResourceEntry :=
  { count := e.count + 1
  , resourceSize := e.resourceSize + record.resourceSize
  , transferSize := e.transferSize + record.transferSize }

/-- Dispatches `resourceSummary[type]` for the seven per-request types
returned by `determineResourceType` (the catch-all is `"other"`, the only
remaining value that function can produce). -/
def addToType (s : ResourceSummaryRec) (type : String) (record : NetworkRequest) :
    ResourceSummaryRec :=
  if type = "stylesheet" then { s with stylesheet := s.stylesheet.add record }
  else if type = "image" then { s with image := s.image.add record }
  else if type = "media" then { s with media := s.media.add record }
  else if type = "font" then { s with font := s.font.add record }
  else if type = "script" then { s with script := s.script.add record }
  else if type = "document" then { s with document := s.document.add record }
  else { s with other := s.other.add record }

/-- Embeds the `forEach` body of `summarize`: bump the record's own type
bucket, bump `total`, and bump `third-party` when the record is not
first-party. -/
def processRecord (firstPartyHosts : List String) (s : ResourceSummaryRec)
    (record : NetworkRequest) : ResourceSummaryRec :=
  let s1 := addToType s (determineResourceType record) record
  let s2 := { s1 with total := s1.total.add record }
  if !(isFirstParty firstPartyHosts record) then
    { s2 with thirdParty := s2.thirdParty.add record }
  else s2

/-- Embeds `ResourceSummary.summarize`. -/
def summarize (ext : Externals) (networkRecords : List NetworkRequest)
    (urlArtifact : URLArtifact) (budgets : Option (List Budget))
    (LinkElements : List LinkElement)
    (classifiedEntities : EntityClassificationArtifact) : ResourceSummaryRec :=
  let firstPartyHosts := resolveFirstPartyHosts ext urlArtifact budgets classifiedEntities
  (survivingRecords ext networkRecords urlArtifact LinkElements).foldl
    (processRecord firstPartyHosts) initialSummary

/-- The entry accumulated over a whole record list: its length and the two
size sums.  Every bucket of the summary is an `aggregate` of some sublist. -/
def aggregate (records : List NetworkRequest) : ResourceEntry :=
  { count := records.length
  , resourceSize := (records.map NetworkRequest.resourceSize).sum
  , transferSize := (records.map NetworkRequest.transferSize).sum }

/-- Field-wise sum of two entries. -/
def ResourceEntry.combine (a b : ResourceEntry) : ResourceEntry :=
  { count := a.count + b.count
  , resourceSize := a.resourceSize + b.resourceSize
  , transferSize := a.transferSize + b.transferSize }

/-- Bool form of the per-record classification test used to carve out one
type bucket. -/
def hasType (t : String) (r : NetworkRequest) : Bool := determineResourceType r == t

/-- Spec-side rendering of the host-pattern match, written from the spec's
words for comparison with the source's inline test: a pattern beginning
with `*.` matches when the hostname ends with the suffix obtained by
stripping the leading `*.`; a pattern without the wildcard only matches the
exact hostname. -/
def specHostMatches (hostname pattern : String) : Prop :=
  (pattern.startsWith "*." ∧ hostname.endsWith (pattern.drop 2)) ∨
  (¬ pattern.startsWith "*." ∧ hostname = pattern)

/-- Spec-side rendering of first-party membership: the hostname matches at
least one pattern of the list (logical OR). -/
def specIsFirstParty (hostname : String) (hostPatterns : List String) : Prop :=
  ∃ pattern ∈ hostPatterns, specHostMatches hostname pattern

/-- Spec-side rendering of trimming surrounding whitespace from a string,
used to state the spec's favicon-link selection rule. -/
def trimWhitespace (s : String) : String :=
  ⟨((s.data.dropWhile Char.isWhitespace).reverse.dropWhile Char.isWhitespace).reverse⟩

/-- Spec-side rendering of the favicon-link selection rule as the spec
words it: the `rel` attribute, after trimming surrounding whitespace, is
exactly `icon` or `shortcut icon`. -/
def specIsIconLink (e : LinkElement) : Prop :=
  trimWhitespace e.rel = "icon" ∨ trimWhitespace e.rel = "shortcut icon"

/-- Test fixture: a trivial external collaborator bundle (no matching
budget, nothing non-network, constant root domain, identity resolution). -/
def extDefault : Externals :=
  { getMatchingBudget := fun _ _ => none
  , isNonNetworkRequest := fun _ => false
  , getRootDomain := fun _ => "example.com"
  , resolveURL := fun href _ => href }

/-- Test fixture: externals whose matched budget carries an explicit
`firstPartyHostnames` override. -/
def extBudget : Externals :=
  { getMatchingBudget := fun _ _ =>
      some { options := some { firstPartyHostnames := some ["cdn.example.com"] } }
  , isNonNetworkRequest := fun _ => false
  , getRootDomain := fun _ => "example.com"
  , resolveURL := fun href _ => href }

/-- Test fixture: a URL artifact for `https://example.com/`. -/
def urlDefault : URLArtifact :=
  { mainDocumentUrl := some "https://example.com/"
  , finalDisplayedUrl := "https://example.com/" }

/-- Test fixture: a concrete script request record. -/
def recScript : NetworkRequest :=
  { url := "https://example.com/a.js", hostname := "example.com"
  , resourceType := some "Script", resourceSize := 10, transferSize := 4 }

lemma zero_combine (e : ResourceEntry) : zeroEntry.combine e = e := by
  simp [zeroEntry, ResourceEntry.combine]

lemma combine_aggregate_nil (e : ResourceEntry) : e.combine (aggregate []) = e := by
  simp [aggregate, ResourceEntry.combine]

lemma add_combine (e : ResourceEntry) (r : NetworkRequest) (l : List NetworkRequest) :
    (e.add r).combine (aggregate l) = e.combine (aggregate (r :: l)) := by
  simp [ResourceEntry.add, ResourceEntry.combine, aggregate, ResourceEntry.mk.injEq]
  omega

lemma determineResourceType_mem (r : NetworkRequest) :
    determineResourceType r ∈
      (["stylesheet", "image", "media", "font", "script", "document", "other"] :
        List String) := by
  unfold determineResourceType
  cases hr : r.resourceType
  · simp
  · repeat' split
    all_goals simp

lemma addToType_total (s : ResourceSummaryRec) (t : String) (r : NetworkRequest) :
    (addToType s t r).total = s.total := by
  unfold addToType
  repeat' split
  all_goals rfl

lemma addToType_thirdParty (s : ResourceSummaryRec) (t : String) (r : NetworkRequest) :
    (addToType s t r).thirdParty = s.thirdParty := by
  unfold addToType
  repeat' split
  all_goals rfl

lemma addToType_stylesheet (s : ResourceSummaryRec) (t : String) (r : NetworkRequest) :
    (addToType s t r).stylesheet =
      if t = "stylesheet" then s.stylesheet.add r else s.stylesheet := by
  unfold addToType
  repeat' split
  all_goals simp_all

lemma addToType_image (s : ResourceSummaryRec) (t : String) (r : NetworkRequest) :
    (addToType s t r).image = if t = "image" then s.image.add r else s.image := by
  unfold addToType
  repeat' split
  all_goals simp_all

lemma addToType_media (s : ResourceSummaryRec) (t : String) (r : NetworkRequest) :
    (addToType s t r).media = if t = "media" then s.media.add r else s.media := by
  unfold addToType
  repeat' split
  all_goals simp_all

lemma addToType_font (s : ResourceSummaryRec) (t : String) (r : NetworkRequest) :
    (addToType s t r).font = if t = "font" then s.font.add r else s.font := by
  unfold addToType
  repeat' split
  all_goals simp_all

lemma addToType_script (s : ResourceSummaryRec) (t : String) (r : NetworkRequest) :
    (addToType s t r).script = if t = "script" then s.script.add r else s.script := by
  unfold addToType
  repeat' split
  all_goals simp_all

lemma addToType_document (s : ResourceSummaryRec) (t : String) (r : NetworkRequest) :
    (addToType s t r).document =
      if t = "document" then s.document.add r else s.document := by
  unfold addToType
  repeat' split
  all_goals simp_all

lemma addToType_other (s : ResourceSummaryRec) (t : String) (r : NetworkRequest) :
    (addToType s t r).other =
      if t = "stylesheet" ∨ t = "image" ∨ t = "media" ∨ t = "font" ∨ t = "script" ∨
          t = "document"
      then s.other else s.other.add r := by
  unfold addToType
  repeat' split
  all_goals simp_all

lemma processRecord_total (fph : List String) (s : ResourceSummaryRec) (r : NetworkRequest) :
    (processRecord fph s r).total = s.total.add r := by
  simp only [processRecord]
  split
  all_goals simp [addToType_total]

lemma processRecord_thirdParty (fph : List String) (s : ResourceSummaryRec)
    (r : NetworkRequest) :
    (processRecord fph s r).thirdParty =
      if !(isFirstParty fph r) then s.thirdParty.add r else s.thirdParty := by
  simp only [processRecord]
  split
  all_goals simp_all [addToType_thirdParty]

lemma processRecord_stylesheet (fph : List String) (s : ResourceSummaryRec)
    (r : NetworkRequest) :
    (processRecord fph s r).stylesheet =
      if hasType "stylesheet" r then s.stylesheet.add r else s.stylesheet := by
  simp only [processRecord, hasType]
  split
  all_goals simp [addToType_stylesheet, beq_iff_eq]

lemma processRecord_image (fph : List String) (s : ResourceSummaryRec) (r : NetworkRequest) :
    (processRecord fph s r).image = if hasType "image" r then s.image.add r else s.image := by
  simp only [processRecord, hasType]
  split
  all_goals simp [addToType_image, beq_iff_eq]

lemma processRecord_media (fph : List String) (s : ResourceSummaryRec) (r : NetworkRequest) :
    (processRecord fph s r).media = if hasType "media" r then s.media.add r else s.media := by
  simp only [processRecord, hasType]
  split
  all_goals simp [addToType_media, beq_iff_eq]

lemma processRecord_font (fph : List String) (s : ResourceSummaryRec) (r : NetworkRequest) :
    (processRecord fph s r).font = if hasType "font" r then s.font.add r else s.font := by
  simp only [processRecord, hasType]
  split
  all_goals simp [addToType_font, beq_iff_eq]

lemma processRecord_script (fph : List String) (s : ResourceSummaryRec) (r : NetworkRequest) :
    (processRecord fph s r).script =
      if hasType "script" r then s.script.add r else s.script := by
  simp only [processRecord, hasType]
  split
  all_goals simp [addToType_script, beq_iff_eq]

lemma processRecord_document (fph : List String) (s : ResourceSummaryRec)
    (r : NetworkRequest) :
    (processRecord fph s r).document =
      if hasType "document" r then s.document.add r else s.document := by
  simp only [processRecord, hasType]
  split
  all_goals simp [addToType_document, beq_iff_eq]

lemma processRecord_other (fph : List String) (s : ResourceSummaryRec) (r : NetworkRequest) :
    (processRecord fph s r).other = if hasType "other" r then s.other.add r else s.other := by
  have hmem := determineResourceType_mem r
  simp only [List.mem_cons, List.not_mem_nil, or_false] at hmem
  simp only [processRecord, hasType]
  rcases hmem with h1 | h1 | h1 | h1 | h1 | h1 | h1
  all_goals split
  all_goals simp [addToType_other, h1, beq_iff_eq]

lemma foldl_entry (fph : List String) (sel : ResourceSummaryRec → ResourceEntry)
    (p : NetworkRequest → Bool)
    (step : ∀ s r, sel (processRecord fph s r) = if p r then (sel s).add r else sel s)
    (l : List NetworkRequest) (s : ResourceSummaryRec) :
    sel (l.foldl (processRecord fph) s) = (sel s).combine (aggregate (l.filter p)) := by
  induction l generalizing s with
  | nil => simp [combine_aggregate_nil]
  | cons r l ih =>
    rw [List.foldl_cons, ih, step]
    cases hp : p r
    · simp [List.filter_cons, hp]
    · simp [List.filter_cons, hp, add_combine]

lemma summarize_total (ext : Externals) (networkRecords : List NetworkRequest)
    (urlArtifact : URLArtifact) (budgets : Option (List Budget))
    (LinkElements : List LinkElement) (classifiedEntities : EntityClassificationArtifact) :
    (summarize ext networkRecords urlArtifact budgets LinkElements classifiedEntities).total =
      aggregate (survivingRecords ext networkRecords urlArtifact LinkElements) := by
  simp only [summarize]
  rw [foldl_entry _ (fun s => s.total) (fun _ => true)
    (fun s r => by simp [processRecord_total])]
  simp [initialSummary, zero_combine]

lemma summarize_thirdParty (ext : Externals) (networkRecords : List NetworkRequest)
    (urlArtifact : URLArtifact) (budgets : Option (List Budget))
    (LinkElements : List LinkElement) (classifiedEntities : EntityClassificationArtifact) :
    (summarize ext networkRecords urlArtifact budgets LinkElements
        classifiedEntities).thirdParty =
      aggregate ((survivingRecords ext networkRecords urlArtifact LinkElements).filter
        fun r => !(isFirstParty
          (resolveFirstPartyHosts ext urlArtifact budgets classifiedEntities) r)) := by
  simp only [summarize]
  rw [foldl_entry _ (fun s => s.thirdParty)
    (fun r => !(isFirstParty (resolveFirstPartyHosts ext urlArtifact budgets classifiedEntities) r))
    (fun s r => by simp [processRecord_thirdParty])]
  simp [initialSummary, zero_combine]

lemma summarize_stylesheet (ext : Externals) (networkRecords : List NetworkRequest)
    (urlArtifact : URLArtifact) (budgets : Option (List Budget))
    (LinkElements : List LinkElement) (classifiedEntities : EntityClassificationArtifact) :
    (summarize ext networkRecords urlArtifact budgets LinkElements
        classifiedEntities).stylesheet =
      aggregate ((survivingRecords ext networkRecords urlArtifact LinkElements).filter
        (hasType "stylesheet")) := by
  simp only [summarize]
  rw [foldl_entry _ (fun s => s.stylesheet) (hasType "stylesheet") (fun s r => by simp [processRecord_stylesheet])]
  simp [initialSummary, zero_combine]

lemma summarize_image (ext : Externals) (networkRecords : List NetworkRequest)
    (urlArtifact : URLArtifact) (budgets : Option (List Budget))
    (LinkElements : List LinkElement) (classifiedEntities : EntityClassificationArtifact) :
    (summarize ext networkRecords urlArtifact budgets LinkElements classifiedEntities).image =
      aggregate ((survivingRecords ext networkRecords urlArtifact LinkElements).filter
        (hasType "image")) := by
  simp only [summarize]
  rw [foldl_entry _ (fun s => s.image) (hasType "image") (fun s r => by simp [processRecord_image])]
  simp [initialSummary, zero_combine]

lemma summarize_media (ext : Externals) (networkRecords : List NetworkRequest)
    (urlArtifact : URLArtifact) (budgets : Option (List Budget))
    (LinkElements : List LinkElement) (classifiedEntities : EntityClassificationArtifact) :
    (summarize ext networkRecords urlArtifact budgets LinkElements classifiedEntities).media =
      aggregate ((survivingRecords ext networkRecords urlArtifact LinkElements).filter
        (hasType "media")) := by
  simp only [summarize]
  rw [foldl_entry _ (fun s => s.media) (hasType "media") (fun s r => by simp [processRecord_media])]
  simp [initialSummary, zero_combine]

lemma summarize_font (ext : Externals) (networkRecords : List NetworkRequest)
    (urlArtifact : URLArtifact) (budgets : Option (List Budget))
    (LinkElements : List LinkElement) (classifiedEntities : EntityClassificationArtifact) :
    (summarize ext networkRecords urlArtifact budgets LinkElements classifiedEntities).font =
      aggregate ((survivingRecords ext networkRecords urlArtifact LinkElements).filter
        (hasType "font")) := by
  simp only [summarize]
  rw [foldl_entry _ (fun s => s.font) (hasType "font") (fun s r => by simp [processRecord_font])]
  simp [initialSummary, zero_combine]

lemma summarize_script (ext : Externals) (networkRecords : List NetworkRequest)
    (urlArtifact : URLArtifact) (budgets : Option (List Budget))
    (LinkElements : List LinkElement) (classifiedEntities : EntityClassificationArtifact) :
    (summarize ext networkRecords urlArtifact budgets LinkElements classifiedEntities).script =
      aggregate ((survivingRecords ext networkRecords urlArtifact LinkElements).filter
        (hasType "script")) := by
  simp only [summarize]
  rw [foldl_entry _ (fun s => s.script) (hasType "script") (fun s r => by simp [processRecord_script])]
  simp [initialSummary, zero_combine]

lemma summarize_document (ext : Externals) (networkRecords : List NetworkRequest)
    (urlArtifact : URLArtifact) (budgets : Option (List Budget))
    (LinkElements : List LinkElement) (classifiedEntities : EntityClassificationArtifact) :
    (summarize ext networkRecords urlArtifact budgets LinkElements
        classifiedEntities).document =
      aggregate ((survivingRecords ext networkRecords urlArtifact LinkElements).filter
        (hasType "document")) := by
  simp only [summarize]
  rw [foldl_entry _ (fun s => s.document) (hasType "document") (fun s r => by simp [processRecord_document])]
  simp [initialSummary, zero_combine]

lemma summarize_other (ext : Externals) (networkRecords : List NetworkRequest)
    (urlArtifact : URLArtifact) (budgets : Option (List Budget))
    (LinkElements : List LinkElement) (classifiedEntities : EntityClassificationArtifact) :
    (summarize ext networkRecords urlArtifact budgets LinkElements classifiedEntities).other =
      aggregate ((survivingRecords ext networkRecords urlArtifact LinkElements).filter
        (hasType "other")) := by
  simp only [summarize]
  rw [foldl_entry _ (fun s => s.other) (hasType "other") (fun s r => by simp [processRecord_other])]
  simp [initialSummary, zero_combine]

/-- C2: a record is dropped by the exclusion filter of `summarize` if and
only if its classified budget type is `other` and its url is a member of
the favicon exclusion set, or the external non-network-protocol predicate
holds for it; in particular a record whose url is in the favicon exclusion
set but whose classified type is not `other` is kept. -/
theorem keepRecord_drop_iff (p : NetworkRequest → Bool) (faviconUrls : List String)
    (record : NetworkRequest) :
    (keepRecord p faviconUrls record = false ↔
      ((determineResourceType record = "other" ∧ record.url ∈ faviconUrls) ∨
        p record = true)) ∧
    (determineResourceType record ≠ "other" → p record = false →
      keepRecord p faviconUrls record = true) := by
  unfold keepRecord
  by_cases h1 : determineResourceType record = "other" <;>
    cases h2 : faviconUrls.contains record.url <;>
      cases h3 : p record <;>
        simp_all [List.contains_eq_any_beq, List.any_eq_true, beq_iff_eq]

/-- C2 witness: a record with url in the favicon set but type `script`,
under a predicate that never fires, is kept by the filter. -/
theorem keepRecord_drop_iff_witness :
    determineResourceType
        { url := "https://a.com/favicon.ico", hostname := "a.com",
          resourceType := some "Script", resourceSize := 1, transferSize := 2 } ≠ "other" ∧
    keepRecord (fun _ => false) ["https://a.com/favicon.ico"]
        { url := "https://a.com/favicon.ico", hostname := "a.com",
          resourceType := some "Script", resourceSize := 1, transferSize := 2 } = true :=
  ⟨by decide,
    (keepRecord_drop_iff (fun _ => false) ["https://a.com/favicon.ico"]
      { url := "https://a.com/favicon.ico", hostname := "a.com",
        resourceType := some "Script", resourceSize := 1, transferSize := 2 }).2
      (by decide) rfl⟩

/-- C3: the inline first-party membership test of `summarize` agrees with
the spec's formulation: a `*.`-pattern matches by hostname suffix after
stripping the wildcard, a plain pattern by exact hostname equality, and a
record is first-party iff some pattern of the list matches. -/
theorem isFirstParty_iff_spec (hostPatterns : List String) (record : NetworkRequest) :
    isFirstParty hostPatterns record = true ↔
      specIsFirstParty record.hostname hostPatterns := by
  simp only [isFirstParty, List.any_eq_true, specIsFirstParty, specHostMatches]
  constructor
  · rintro ⟨pattern, hp, hm⟩
    refine ⟨pattern, hp, ?_⟩
    by_cases hw : pattern.startsWith "*." <;> simp [hw] at hm <;> simp [hw, hm]
  · rintro ⟨pattern, hp, hm⟩
    refine ⟨pattern, hp, ?_⟩
    rcases hm with ⟨hw, hm⟩ | ⟨hw, hm⟩ <;> simp [hw, hm]

/-- C8: the per-record classifier is total: an absent protocol resource
type yields `other`; the six known protocol types map to their buckets;
any other value yields `other`; the result is never `total` or
`third-party`. -/
theorem determineResourceType_spec (r : NetworkRequest) :
    (r.resourceType = none → determineResourceType r = "other") ∧
    (r.resourceType = some "Stylesheet" → determineResourceType r = "stylesheet") ∧
    (r.resourceType = some "Image" → determineResourceType r = "image") ∧
    (r.resourceType = some "Media" → determineResourceType r = "media") ∧
    (r.resourceType = some "Font" → determineResourceType r = "font") ∧
    (r.resourceType = some "Script" → determineResourceType r = "script") ∧
    (r.resourceType = some "Document" → determineResourceType r = "document") ∧
    (∀ s, r.resourceType = some s →
      s ∉ (["Stylesheet", "Image", "Media", "Font", "Script", "Document"] : List String) →
      determineResourceType r = "other") ∧
    determineResourceType r ≠ "total" ∧ determineResourceType r ≠ "third-party" := by
  refine ⟨?_, ?_, ?_, ?_, ?_, ?_, ?_, ?_, ?_⟩
  · intro h; simp [determineResourceType, h]
  · intro h; simp [determineResourceType, h]
  · intro h; simp [determineResourceType, h]
  · intro h; simp [determineResourceType, h]
  · intro h; simp [determineResourceType, h]
  · intro h; simp [determineResourceType, h]
  · intro h; simp [determineResourceType, h]
  · intro s h hmem
    simp only [List.mem_cons, List.not_mem_nil, or_false, not_or] at hmem
    obtain ⟨h1, h2, h3, h4, h5, h6⟩ := hmem
    simp [determineResourceType, h, h1, h2, h3, h4, h5, h6]
  · have hm := determineResourceType_mem r
    simp only [List.mem_cons, List.not_mem_nil, or_false] at hm
    rcases hm with h | h | h | h | h | h | h <;> simp [h]

/-- C8 witness: the classifier evaluated on an absent type, a known type
and an unrecognized type. -/
theorem determineResourceType_spec_witness :
    determineResourceType
        { url := "u", hostname := "h", resourceType := none,
          resourceSize := 0, transferSize := 0 } = "other" ∧
    determineResourceType
        { url := "u", hostname := "h", resourceType := some "Stylesheet",
          resourceSize := 0, transferSize := 0 } = "stylesheet" ∧
    determineResourceType
        { url := "u", hostname := "h", resourceType := some "Ping",
          resourceSize := 0, transferSize := 0 } = "other" :=
  ⟨(determineResourceType_spec
      { url := "u", hostname := "h", resourceType := none,
        resourceSize := 0, transferSize := 0 }).1 rfl,
   (determineResourceType_spec
      { url := "u", hostname := "h", resourceType := some "Stylesheet",
        resourceSize := 0, transferSize := 0 }).2.1 rfl,
   (determineResourceType_spec
      { url := "u", hostname := "h", resourceType := some "Ping",
        resourceSize := 0, transferSize := 0 }).2.2.2.2.2.2.2.1 "Ping" rfl (by decide)⟩

lemma length_filter_not_add_length_filter {α : Type} (p : α → Bool) (l : List α) :
    (l.filter fun a => !(p a)).length + (l.filter p).length = l.length := by
  induction l with
  | nil => rfl
  | cons a l ih =>
    cases hp : p a
    all_goals simp [List.filter_cons, hp]
    all_goals omega

lemma aggregate_nonneg (l : List NetworkRequest)
    (h : ∀ r ∈ l, 0 ≤ r.resourceSize ∧ 0 ≤ r.transferSize) :
    0 ≤ (aggregate l).resourceSize ∧ 0 ≤ (aggregate l).transferSize := by
  constructor
  · apply List.sum_nonneg
    intro x hx
    obtain ⟨r, hr, hrx⟩ := List.mem_map.mp hx
    exact hrx ▸ (h r hr).1
  · apply List.sum_nonneg
    intro x hx
    obtain ⟨r, hr, hrx⟩ := List.mem_map.mp hx
    exact hrx ▸ (h r hr).2

lemma get_cases (s : ResourceSummaryRec) (key : String) (entry : ResourceEntry)
    (h : s.get key = some entry) :
    entry = s.stylesheet ∨ entry = s.image ∨ entry = s.media ∨ entry = s.font ∨
    entry = s.script ∨ entry = s.document ∨ entry = s.other ∨ entry = s.total ∨
    entry = s.thirdParty := by
  unfold ResourceSummaryRec.get at h
  repeat' split at h
  all_goals simp_all

/-- C1: the `total` bucket of the returned summary counts exactly the
records surviving the exclusion filter, and its two sizes are the sums of
the surviving records' sizes. -/
theorem summarize_total_bucket (ext : Externals) (networkRecords : List NetworkRequest)
    (urlArtifact : URLArtifact) (budgets : Option (List Budget))
    (LinkElements : List LinkElement) (classifiedEntities : EntityClassificationArtifact) :
    (summarize ext networkRecords urlArtifact budgets LinkElements
        classifiedEntities).total.count =
      (survivingRecords ext networkRecords urlArtifact LinkElements).length ∧
    (summarize ext networkRecords urlArtifact budgets LinkElements
        classifiedEntities).total.resourceSize =
      ((survivingRecords ext networkRecords urlArtifact LinkElements).map
        NetworkRequest.resourceSize).sum ∧
    (summarize ext networkRecords urlArtifact budgets LinkElements
        classifiedEntities).total.transferSize =
      ((survivingRecords ext networkRecords urlArtifact LinkElements).map
        NetworkRequest.transferSize).sum := by
  refine ⟨?_, ?_, ?_⟩
  all_goals rw [summarize_total]
  all_goals rfl

/-- C7: the `third-party` bucket count plus the number of first-party
surviving records equals the `total` bucket count, and the third-party
sizes are the sums over surviving non-first-party records. -/
theorem summarize_third_party_bucket (ext : Externals) (networkRecords : List NetworkRequest)
    (urlArtifact : URLArtifact) (budgets : Option (List Budget))
    (LinkElements : List LinkElement) (classifiedEntities : EntityClassificationArtifact) :
    (summarize ext networkRecords urlArtifact budgets LinkElements
          classifiedEntities).thirdParty.count +
        ((survivingRecords ext networkRecords urlArtifact LinkElements).filter fun r =>
          isFirstParty (resolveFirstPartyHosts ext urlArtifact budgets classifiedEntities)
            r).length =
      (summarize ext networkRecords urlArtifact budgets LinkElements
        classifiedEntities).total.count ∧
    (summarize ext networkRecords urlArtifact budgets LinkElements
        classifiedEntities).thirdParty.resourceSize =
      (((survivingRecords ext networkRecords urlArtifact LinkElements).filter fun r =>
          !(isFirstParty (resolveFirstPartyHosts ext urlArtifact budgets classifiedEntities)
            r)).map NetworkRequest.resourceSize).sum ∧
    (summarize ext networkRecords urlArtifact budgets LinkElements
        classifiedEntities).thirdParty.transferSize =
      (((survivingRecords ext networkRecords urlArtifact LinkElements).filter fun r =>
          !(isFirstParty (resolveFirstPartyHosts ext urlArtifact budgets classifiedEntities)
            r)).map NetworkRequest.transferSize).sum := by
  refine ⟨?_, ?_, ?_⟩
  all_goals rw [summarize_thirdParty]
  · rw [summarize_total]
    exact length_filter_not_add_length_filter _ _
  all_goals rfl

/-- C6 counterexample: the source selects icon links by exact, untrimmed
comparison of `rel`, so a link whose `rel` is `" icon"` (trimming to
`"icon"`) is not selected, refuting the claim as stated. -/
theorem isIconLink_trim_counterexample :
    ¬ (∀ e : LinkElement, isIconLink e = true ↔ specIsIconLink e) := by
  intro h
  have hx := (h { rel := " icon", href := none }).mpr
    (Or.inl (by decide))
  exact absurd hx (by decide)

/-- C6 amended: a link element is selected as a favicon link iff its `rel`
attribute is exactly (case-sensitively, without whitespace trimming) equal
to `icon` or `shortcut icon`. -/
theorem isIconLink_iff_exact (e : LinkElement) :
    isIconLink e = true ↔ (e.rel = "icon" ∨ e.rel = "shortcut icon") := by
  simp [isIconLink]

/-- C5: the favicon candidate set is empty when `mainDocumentUrl` is
absent; the single default `/favicon.ico` resolved against
`mainDocumentUrl` when no link element is selected as an icon link; and
otherwise exactly the selected links' `href`s resolved against
`mainDocumentUrl`, skipping links without an `href` and without the
default URL. -/
theorem determineFaviconUrls_cases (resolveURL : String → String → String)
    (LinkElements : List LinkElement) :
    (determineFaviconUrls resolveURL LinkElements none = []) ∧
    (∀ mainUrl, LinkElements.filter isIconLink = [] →
      determineFaviconUrls resolveURL LinkElements (some mainUrl) =
        [resolveURL "/favicon.ico" mainUrl]) ∧
    (∀ mainUrl, LinkElements.filter isIconLink ≠ [] →
      determineFaviconUrls resolveURL LinkElements (some mainUrl) =
        (LinkElements.filter isIconLink).filterMap fun linkElement =>
          linkElement.href.map fun href => resolveURL href mainUrl) := by
  refine ⟨rfl, ?_, ?_⟩
  · intro mainUrl h
    simp [determineFaviconUrls, h]
  · intro mainUrl h
    simp [determineFaviconUrls, List.length_eq_zero, h]

/-- C5 witness: with no icon link the default is returned; with two icon
links (one lacking an `href`) exactly the resolved `href`s are returned. -/
theorem determineFaviconUrls_cases_witness :
    determineFaviconUrls (fun href _ => href)
        [{ rel := "stylesheet", href := some "style.css" }] (some "https://example.com/") =
      ["/favicon.ico"] ∧
    determineFaviconUrls (fun href _ => href)
        [{ rel := "icon", href := some "fav.png" }, { rel := "icon", href := none }]
        (some "https://example.com/") =
      ["fav.png"] :=
  ⟨(determineFaviconUrls_cases (fun href _ => href)
      [{ rel := "stylesheet", href := some "style.css" }]).2.1
      "https://example.com/" (by decide),
   (determineFaviconUrls_cases (fun href _ => href)
      [{ rel := "icon", href := some "fav.png" }, { rel := "icon", href := none }]).2.2
      "https://example.com/" (by decide)⟩

/-- C4: the first-party host-pattern list resolution precedence: a matched
budget's `options.firstPartyHostnames` is used verbatim when present; else
the first-party entity's domains each prefixed with `*.`; else the single
pattern `*.` + root domain of the final displayed URL. -/
theorem resolveFirstPartyHosts_precedence (ext : Externals) (urlArtifact : URLArtifact)
    (budgets : Option (List Budget)) (classifiedEntities : EntityClassificationArtifact) :
    (∀ hostnames,
      (((ext.getMatchingBudget budgets urlArtifact.mainDocumentUrl).bind fun b =>
          b.options).bind fun o => o.firstPartyHostnames) = some hostnames →
      resolveFirstPartyHosts ext urlArtifact budgets classifiedEntities = hostnames) ∧
    ((((ext.getMatchingBudget budgets urlArtifact.mainDocumentUrl).bind fun b =>
          b.options).bind fun o => o.firstPartyHostnames) = none →
      ∀ firstParty, classifiedEntities.firstParty = some firstParty →
        resolveFirstPartyHosts ext urlArtifact budgets classifiedEntities =
          firstParty.domains.map fun domain => "*." ++ domain) ∧
    ((((ext.getMatchingBudget budgets urlArtifact.mainDocumentUrl).bind fun b =>
          b.options).bind fun o => o.firstPartyHostnames) = none →
      classifiedEntities.firstParty = none →
      resolveFirstPartyHosts ext urlArtifact budgets classifiedEntities =
        ["*." ++ ext.getRootDomain urlArtifact.finalDisplayedUrl]) := by
  refine ⟨?_, ?_, ?_⟩
  · intro hostnames h
    simp [resolveFirstPartyHosts, h]
  · intro h firstParty hfp
    simp [resolveFirstPartyHosts, h, hfp]
  · intro h hfp
    simp [resolveFirstPartyHosts, h, hfp]

/-- C4 witness: the three precedence branches evaluated on concrete
inputs. -/
theorem resolveFirstPartyHosts_precedence_witness :
    resolveFirstPartyHosts extBudget urlDefault none
        { firstParty := some { domains := ["example.org"] } } = ["cdn.example.com"] ∧
    resolveFirstPartyHosts extDefault urlDefault none
        { firstParty := some { domains := ["example.org"] } } = ["*." ++ "example.org"] ∧
    resolveFirstPartyHosts extDefault urlDefault none { firstParty := none } =
      ["*." ++ "example.com"] :=
  ⟨(resolveFirstPartyHosts_precedence extBudget urlDefault none
      { firstParty := some { domains := ["example.org"] } }).1 ["cdn.example.com"] rfl,
   (resolveFirstPartyHosts_precedence extDefault urlDefault none
      { firstParty := some { domains := ["example.org"] } }).2.1 rfl
      { domains := ["example.org"] } rfl,
   (resolveFirstPartyHosts_precedence extDefault urlDefault none
      { firstParty := none }).2.2 rfl rfl⟩

/-- C9: the returned summary has exactly the nine budget resource-type
keys; given non-negative input sizes every entry is non-negative; and a
bucket matched by no surviving record is zero-initialized. -/
theorem summarize_nine_buckets (ext : Externals) (networkRecords : List NetworkRequest)
    (urlArtifact : URLArtifact) (budgets : Option (List Budget))
    (LinkElements : List LinkElement) (classifiedEntities : EntityClassificationArtifact)
    (hsizes : ∀ r ∈ networkRecords, 0 ≤ r.resourceSize ∧ 0 ≤ r.transferSize) :
    (∀ key,
      ((summarize ext networkRecords urlArtifact budgets LinkElements
          classifiedEntities).get key).isSome = true ↔
        key ∈ allBudgetResourceTypes) ∧
    (∀ key entry,
      (summarize ext networkRecords urlArtifact budgets LinkElements
          classifiedEntities).get key = some entry →
        0 ≤ entry.count ∧ 0 ≤ entry.resourceSize ∧ 0 ≤ entry.transferSize) ∧
    (∀ t, t ∈ (["stylesheet", "image", "media", "font", "script", "document", "other"] :
        List String) →
      (survivingRecords ext networkRecords urlArtifact LinkElements).filter (hasType t) =
        [] →
      (summarize ext networkRecords urlArtifact budgets LinkElements
        classifiedEntities).get t = some zeroEntry) ∧
    (survivingRecords ext networkRecords urlArtifact LinkElements = [] →
      (summarize ext networkRecords urlArtifact budgets LinkElements
        classifiedEntities).total = zeroEntry) ∧
    ((survivingRecords ext networkRecords urlArtifact LinkElements).filter (fun r =>
        !(isFirstParty (resolveFirstPartyHosts ext urlArtifact budgets classifiedEntities)
          r)) = [] →
      (summarize ext networkRecords urlArtifact budgets LinkElements
        classifiedEntities).thirdParty = zeroEntry) := by
  have hsub : ∀ r ∈ survivingRecords ext networkRecords urlArtifact LinkElements,
      0 ≤ r.resourceSize ∧ 0 ≤ r.transferSize :=
    fun r hr => hsizes r (List.mem_of_mem_filter hr)
  refine ⟨?_, ?_, ?_, ?_, ?_⟩
  · intro key
    unfold ResourceSummaryRec.get allBudgetResourceTypes
    repeat' split
    all_goals simp_all
  · intro key entry hget
    refine ⟨Nat.zero_le _, ?_⟩
    have h9 := get_cases _ key entry hget
    rcases h9 with h | h | h | h | h | h | h | h | h
    all_goals subst h
    · rw [summarize_stylesheet]
      exact aggregate_nonneg _ (fun r hr => hsub r (List.mem_of_mem_filter hr))
    · rw [summarize_image]
      exact aggregate_nonneg _ (fun r hr => hsub r (List.mem_of_mem_filter hr))
    · rw [summarize_media]
      exact aggregate_nonneg _ (fun r hr => hsub r (List.mem_of_mem_filter hr))
    · rw [summarize_font]
      exact aggregate_nonneg _ (fun r hr => hsub r (List.mem_of_mem_filter hr))
    · rw [summarize_script]
      exact aggregate_nonneg _ (fun r hr => hsub r (List.mem_of_mem_filter hr))
    · rw [summarize_document]
      exact aggregate_nonneg _ (fun r hr => hsub r (List.mem_of_mem_filter hr))
    · rw [summarize_other]
      exact aggregate_nonneg _ (fun r hr => hsub r (List.mem_of_mem_filter hr))
    · rw [summarize_total]
      exact aggregate_nonneg _ hsub
    · rw [summarize_thirdParty]
      exact aggregate_nonneg _ (fun r hr => hsub r (List.mem_of_mem_filter hr))
  · intro t ht hfilt
    simp only [List.mem_cons, List.not_mem_nil, or_false] at ht
    rcases ht with h | h | h | h | h | h | h
    all_goals subst h
    · simp [ResourceSummaryRec.get, summarize_stylesheet, hfilt, aggregate, zeroEntry]
    · simp [ResourceSummaryRec.get, summarize_image, hfilt, aggregate, zeroEntry]
    · simp [ResourceSummaryRec.get, summarize_media, hfilt, aggregate, zeroEntry]
    · simp [ResourceSummaryRec.get, summarize_font, hfilt, aggregate, zeroEntry]
    · simp [ResourceSummaryRec.get, summarize_script, hfilt, aggregate, zeroEntry]
    · simp [ResourceSummaryRec.get, summarize_document, hfilt, aggregate, zeroEntry]
    · simp [ResourceSummaryRec.get, summarize_other, hfilt, aggregate, zeroEntry]
  · intro h
    rw [summarize_total, h]
    rfl
  · intro h
    rw [summarize_thirdParty, h]
    rfl

/-- C9 witness: with an empty record list every bucket of the summary is
zero-initialized and the key set is the nine budget resource types. -/
theorem summarize_nine_buckets_witness :
    ((summarize extDefault [] urlDefault none [] { firstParty := none }).get "image").isSome =
        true ∧
    (summarize extDefault [] urlDefault none [] { firstParty := none }).get "image" =
      some zeroEntry ∧
    (summarize extDefault [] urlDefault none [] { firstParty := none }).total = zeroEntry := by
  have h := summarize_nine_buckets extDefault [] urlDefault none [] { firstParty := none }
    (by simp)
  exact ⟨(h.1 "image").mpr (by decide), h.2.2.1 "image" (by decide) rfl, h.2.2.2.1 rfl⟩

/-- C10: when no matching budget supplies `firstPartyHostnames` and the
classified first-party entity has an empty domains list, the resolved
host-pattern list is empty (the root-domain fallback is not applied) and
every surviving record is counted in the `third-party` bucket, which then
equals the `total` bucket. -/
theorem emptyDomains_all_third_party (ext : Externals) (networkRecords : List NetworkRequest)
    (urlArtifact : URLArtifact) (budgets : Option (List Budget))
    (LinkElements : List LinkElement) (classifiedEntities : EntityClassificationArtifact)
    (hbudget : (((ext.getMatchingBudget budgets urlArtifact.mainDocumentUrl).bind fun b =>
        b.options).bind fun o => o.firstPartyHostnames) = none)
    (hfp : classifiedEntities.firstParty = some { domains := [] }) :
    resolveFirstPartyHosts ext urlArtifact budgets classifiedEntities = [] ∧
    (summarize ext networkRecords urlArtifact budgets LinkElements
        classifiedEntities).thirdParty =
      (summarize ext networkRecords urlArtifact budgets LinkElements
        classifiedEntities).total := by
  have hre : resolveFirstPartyHosts ext urlArtifact budgets classifiedEntities = [] := by
    simp [resolveFirstPartyHosts, hbudget, hfp]
  refine ⟨hre, ?_⟩
  rw [summarize_thirdParty, summarize_total, hre]
  simp [isFirstParty]

/-- C10 witness: the concrete evaluation with a trivial budget matcher, a
first-party entity with no domains, and one surviving script record. -/
theorem emptyDomains_all_third_party_witness :
    resolveFirstPartyHosts extDefault urlDefault none
        { firstParty := some { domains := [] } } = [] ∧
    (summarize extDefault [recScript] urlDefault none []
        { firstParty := some { domains := [] } }).thirdParty =
      (summarize extDefault [recScript] urlDefault none []
        { firstParty := some { domains := [] } }).total :=
  emptyDomains_all_third_party extDefault [recScript] urlDefault none []
    { firstParty := some { domains := [] } } rfl rfl

end ResourceSummary
